import Mathlib

/-!
Verification of the task/model/language-code resolution logic and the
batching strategy of the `mbart.py` translation wrapper.

The module-level rosters, the task table and the function
`model_task_to_src_tgt_lang` are embedded directly from the source.
The external pretrained-model library (tokenizer loading, encoding,
generation, decoding) is modelled as an abstract collaborator, and the
`MBART.prepare` / `MBART.predict` / `MBART.predict_offline` methods are
embedded as functions over that collaborator.
-/

namespace Mbart

/-- Roster of the MBART family, from `MBART_MODELS` in the source. -/
def MBART_MODELS : List String :=
  ["facebook/mbart-large-en-ro"]

/-- Roster of the MBART50 family, from `MBART50_MODELS` in the source. -/
def MBART50_MODELS : List String :=
  ["facebook/mbart-large-50-one-to-many-mmt",
   "facebook/mbart-large-50-many-to-one-mmt",
   "facebook/mbart-large-50-many-to-many-mmt"]

/-- Roster of the M2M100 family, from `M2M100_MODELS` in the source. -/
def M2M100_MODELS : List String :=
  ["facebook/m2m100_418M",
   "facebook/m2m100_1.2B",
   "facebook/m2m100-12B-avg-5-ckpt",
   "facebook/m2m100-12B-avg-10-ckpt",
   "facebook/m2m100-12B-last-ckpt",
   "facebook/wmt21-dense-24-wide-en-x",
   "facebook/wmt21-dense-24-wide-x-en"]

/-- `VALID_MODELS = MBART_MODELS + MBART50_MODELS + M2M100_MODELS`. -/
def VALID_MODELS : List String := MBART_MODELS ++ MBART50_MODELS ++ M2M100_MODELS

/-- Key set of the `TASK2SRCTGT` dictionary. -/
def TASKS : List String :=
  ["wmt16-en-ro", "wmt16-en-de", "wmt16-ro-en", "wmt16-de-en"]

/-- The `TASK2SRCTGT` dictionary: task name to (src_lang, tgt_lang) 5-char codes. -/
def TASK2SRCTGT (task : String) : Option (String × String) :=
  if task = "wmt16-en-ro" then some ("en_XX", "ro_RO")
  else if task = "wmt16-en-de" then some ("en_XX", "de_DE")
  else if task = "wmt16-ro-en" then some ("ro_RO", "en_XX")
  else if task = "wmt16-de-en" then some ("de_DE", "en_XX")
  else none

/-- The ways `model_task_to_src_tgt_lang` can raise: the `TypeError` from
subscripting the `None` returned by `TASK2SRCTGT.get` on an unknown task, and
the two kinds of `AssertionError` carrying the model id and the offending code. -/
inductive ResolveError where
  | unknownTask (task : String)
  | unsupportedSrc (model : String) (src_lang : String)
  | unsupportedTgt (model : String) (tgt_lang : String)
deriving DecidableEq, Repr

/-- Embedding of `model_task_to_src_tgt_lang(model, task)`: looks up the task's
5-char codes, applies the family-specific assertions in source order, and trims
both codes to 2 chars when the model is in `M2M100_MODELS`. -/
def model_task_to_src_tgt_lang (model task : String) : Except ResolveError (String × String) :=
  match TASK2SRCTGT task with
  | none => Except.error (ResolveError.unknownTask task)
  | some (src_lang, tgt_lang) =>
    if model ∈ MBART_MODELS ∧ src_lang ≠ "en_XX" then
      Except.error (ResolveError.unsupportedSrc model src_lang)
    else if model ∈ MBART_MODELS ∧ tgt_lang ≠ "ro_RO" then
      Except.error (ResolveError.unsupportedTgt model tgt_lang)
    else if (model = MBART50_MODELS[0]! ∨ model = M2M100_MODELS[5]!) ∧ src_lang ≠ "en_XX" then
      Except.error (ResolveError.unsupportedSrc model src_lang)
    else if (model = MBART50_MODELS[1]! ∨ model = M2M100_MODELS[6]!) ∧ tgt_lang ≠ "en_XX" then
      Except.error (ResolveError.unsupportedTgt model tgt_lang)
    else if model ∈ M2M100_MODELS then
      Except.ok (src_lang.take 2, tgt_lang.take 2)
    else
      Except.ok (src_lang, tgt_lang)

/-- `true` when the resolver returns a code pair rather than raising. -/
def resolveSucceeds (model task : String) : Bool :=
  match model_task_to_src_tgt_lang model task with
  | Except.ok _ => true
  | Except.error _ => false

/-- Abstract view of the loaded tokenizer: the M2M100 lookup-by-code function
`get_lang_id` and the MBART/MBART50 direct mapping table `lang_code_to_id`. -/
structure Tokenizer where
  get_lang_id : String → Int
  lang_code_to_id : String → Int

/-- The family-specific generation control argument built in `MBART.prepare`. -/
inductive ControlArgs where
  | decoder_start_token_id (i : Int)
  | forced_bos_token_id (i : Int)
deriving DecidableEq, Repr

/-- Observable loading behaviour selected by the quantize-mode branch of
`MBART.prepare`: dtype or quantized loading, and explicit `.to(device)` move
versus `device_map="auto"` placement. -/
inductive LoadMode where
  | fp16_to_device
  | bf16_to_device
  | bb8_device_map_auto
  | bb4_device_map_auto
  | full_precision_to_device
deriving DecidableEq, Repr

/-- The exceptions `MBART.prepare` can raise from its own code: a resolver
failure propagated from `model_task_to_src_tgt_lang`, or the `ValueError` of
the model-class/control-argument selection step. -/
inductive PrepareError where
  | resolveError (e : ResolveError)
  | valueError (model : String)
deriving DecidableEq, Repr

/-- The state `MBART.prepare` leaves on the instance. -/
structure Prepared where
  src_lang : String
  tgt_lang : String
  src_lang_id : Int
  tgt_lang_id : Int
  additional_args : ControlArgs
  load_mode : LoadMode
deriving DecidableEq, Repr

/-- The `if self._quantize_mode == ...` chain of `MBART.prepare`, reduced to
its observable loading behaviour. -/
def quantize_load_mode (quantize_mode : String) : LoadMode :=
  if quantize_mode = "fp16" then LoadMode.fp16_to_device
  else if quantize_mode = "bf16" then LoadMode.bf16_to_device
  else if quantize_mode = "bb8" then LoadMode.bb8_device_map_auto
  else if quantize_mode = "bb4" then LoadMode.bb4_device_map_auto
  else LoadMode.full_precision_to_device

/-- Embedding of `MBART.prepare` (called by `MBART.__init__`): resolve the
language codes, derive integer language ids from the tokenizer (M2M100 via
`get_lang_id`, otherwise via `lang_code_to_id`), select the model class and
control argument by family (raising `ValueError` for an unrecognized model),
and record the quantize-mode loading branch. -/
def prepare (tokenizer : Tokenizer) (model task quantize_mode : String) :
    Except PrepareError Prepared :=
  match model_task_to_src_tgt_lang model task with
  | Except.error e => Except.error (PrepareError.resolveError e)
  | Except.ok (src_lang, tgt_lang) =>
    let src_lang_id :=
      if model ∈ M2M100_MODELS then tokenizer.get_lang_id src_lang
      else tokenizer.lang_code_to_id src_lang
    let tgt_lang_id :=
      if model ∈ M2M100_MODELS then tokenizer.get_lang_id tgt_lang
      else tokenizer.lang_code_to_id tgt_lang
    if model ∈ MBART_MODELS then
      Except.ok ⟨src_lang, tgt_lang, src_lang_id, tgt_lang_id,
        ControlArgs.decoder_start_token_id tgt_lang_id, quantize_load_mode quantize_mode⟩
    else if model ∈ MBART50_MODELS then
      Except.ok ⟨src_lang, tgt_lang, src_lang_id, tgt_lang_id,
        ControlArgs.forced_bos_token_id tgt_lang_id, quantize_load_mode quantize_mode⟩
    else if model ∈ M2M100_MODELS then
      Except.ok ⟨src_lang, tgt_lang, src_lang_id, tgt_lang_id,
        ControlArgs.forced_bos_token_id tgt_lang_id, quantize_load_mode quantize_mode⟩
    else
      Except.error (PrepareError.valueError model)

/-- Abstract external collaborator: `batch_encode_plus` (to padded id rows),
`model.generate` under the control argument, and `batch_decode` with special
tokens stripped. -/
structure ExternalModel where
  encode : List String → List (List Nat)
  generate : List (List Nat) → ControlArgs → List (List Nat)
  decode : List (List Nat) → List String

/-- Embedding of `MBART.predict`: encode the whole input list as one padded
batch, generate with the control argument, decode, and yield each decoded
output stripped of surrounding whitespace, in order. -/
def predict (m : ExternalModel) (args : ControlArgs) (inputs : List String) : List String :=
  (m.decode (m.generate (m.encode inputs) args)).map (fun output => output.trim)

/-- The sort key relation of `sorted(inputs, key=len)`. -/
def lenLe (a b : String) : Prop := a.length ≤ b.length

instance : DecidableRel lenLe := fun a b => Nat.decLe a.length b.length

instance : IsTotal String lenLe := ⟨fun a b => Nat.le_total a.length b.length⟩

instance : IsTrans String lenLe := ⟨fun _ _ _ h h' => Nat.le_trans h h'⟩

/-- Embedding of Python's builtin `sorted(inputs, key=len)`: the stable sort of
the inputs by ascending string length (insertion sort is extensionally the
unique stable sort for this total preorder). -/
def sortByLen (inputs : List String) : List String :=
  List.insertionSort lenLe inputs

/-- Embedding of `more_itertools.chunked(l, n)`: consecutive chunks of `n`
elements, the last chunk possibly smaller. -/
def chunked {α : Type _} (n : Nat) (l : List α) : List (List α) :=
  match l with
  | [] => []
  | x :: xs => (x :: xs.take (n - 1)) :: chunked n (xs.drop (n - 1))
termination_by l.length
decreasing_by simp [List.length_drop]; omega

/-- Embedding of `MBART.predict_offline`: sort the inputs by ascending length,
chunk into batches of 32, and for each batch encode, generate, decode and
yield each output trimmed, batches in order. -/
def predict_offline (m : ExternalModel) (args : ControlArgs) (inputs : List String) :
    List String :=
  let batches := chunked 32 (sortByLen inputs)
  (batches.map
    (fun batch => (m.decode (m.generate (m.encode batch) args)).map
      (fun output => output.trim))).flatten

/-- The chunk-size sequence described by the spec: chunks of exactly 32, the
last chunk possibly smaller. -/
def chunkSizes32 (len : Nat) : List Nat :=
  if h : len = 0 then [] else min 32 len :: chunkSizes32 (len - 32)
termination_by len
decreasing_by omega

/-- A concrete tokenizer used in witnesses. -/
def tok0 : Tokenizer := ⟨fun _ => 7, fun _ => 3⟩

/-- The state `prepare` produces from `tok0` on the MBART model, the en→ro
task and an unrecognized quantize mode. -/
def st0 : Prepared :=
  ⟨"en_XX", "ro_RO", 3, 3, ControlArgs.decoder_start_token_id 3,
    LoadMode.full_precision_to_device⟩

/-- A concrete per-row encoder used in witnesses. -/
def enc0 (s : String) : List Nat := [s.length]

/-- A concrete per-row generation step used in witnesses. -/
def gen0 (r : List Nat) : List Nat := r ++ [0]

/-- A concrete per-row decoder used in witnesses. -/
def dec0 (r : List Nat) : String := String.mk (List.replicate r.length 'x')

/-- A concrete external collaborator whose stages are elementwise maps. -/
def m0 : ExternalModel := ⟨fun b => b.map enc0, fun b _ => b.map gen0, fun b => b.map dec0⟩

/-- Forty concrete inputs of varying lengths, for the C9 witness. -/
def inputs40 : List String :=
  (List.range 40).map (fun i => String.mk (List.replicate (i % 5 + 1) 'a'))

end Mbart

deriving instance DecidableEq for Except

namespace Mbart

/-- The task table only ever produces one of four code pairs. -/
theorem TASK2SRCTGT_cases {task src tgt : String} (h : TASK2SRCTGT task = some (src, tgt)) :
    (src = "en_XX" ∧ tgt = "ro_RO") ∨ (src = "en_XX" ∧ tgt = "de_DE") ∨
    (src = "ro_RO" ∧ tgt = "en_XX") ∨ (src = "de_DE" ∧ tgt = "en_XX") := by
  unfold TASK2SRCTGT at h
  split_ifs at h <;> simp only [Option.some.injEq, Prod.mk.injEq] at h <;>
    rcases h with ⟨rfl, rfl⟩ <;> tauto

/-- A model outside `VALID_MODELS` is outside each of the three rosters. -/
theorem not_mem_rosters {model : String} (h : model ∉ VALID_MODELS) :
    model ∉ MBART_MODELS ∧ model ∉ MBART50_MODELS ∧ model ∉ M2M100_MODELS := by
  simp only [VALID_MODELS, List.mem_append, not_or] at h
  exact ⟨h.1.1, h.1.2, h.2⟩

/-- For a model in no roster, the resolver performs no check and returns the
task's codes unmodified. -/
theorem resolve_unknown {model : String} (h : model ∉ VALID_MODELS) {task src tgt : String}
    (ht : TASK2SRCTGT task = some (src, tgt)) :
    model_task_to_src_tgt_lang model task = Except.ok (src, tgt) := by
  obtain ⟨h1, h2, h3⟩ := not_mem_rosters h
  have e0 : model ≠ MBART50_MODELS[0]! := fun e => h2 (by rw [e]; decide)
  have e1 : model ≠ MBART50_MODELS[1]! := fun e => h2 (by rw [e]; decide)
  have e5 : model ≠ M2M100_MODELS[5]! := fun e => h3 (by rw [e]; decide)
  have e6 : model ≠ M2M100_MODELS[6]! := fun e => h3 (by rw [e]; decide)
  simp [model_task_to_src_tgt_lang, ht, h1, h2, h3, e0, e1, e5, e6]

/-- For a model in no roster, `prepare` reaches the model-class selection step
and raises its `ValueError`. -/
theorem prepare_unknown {model : String} (h : model ∉ VALID_MODELS) {task src tgt : String}
    (ht : TASK2SRCTGT task = some (src, tgt)) (tokenizer : Tokenizer) (q : String) :
    prepare tokenizer model task q = Except.error (PrepareError.valueError model) := by
  obtain ⟨h1, h2, h3⟩ := not_mem_rosters h
  simp [prepare, resolve_unknown h ht, h1, h2, h3]

/-- Inversion on a successful `prepare`: the recorded loading branch, control
argument and target language id of the resulting state. -/
theorem prepare_ok_inversion {tokenizer : Tokenizer} {model task q : String} {st : Prepared}
    (h : prepare tokenizer model task q = Except.ok st) :
    st.load_mode = quantize_load_mode q ∧
    (model ∈ MBART_MODELS →
      st.additional_args = ControlArgs.decoder_start_token_id st.tgt_lang_id) ∧
    (model ∉ MBART_MODELS →
      st.additional_args = ControlArgs.forced_bos_token_id st.tgt_lang_id) ∧
    st.tgt_lang_id = (if model ∈ M2M100_MODELS then tokenizer.get_lang_id st.tgt_lang
      else tokenizer.lang_code_to_id st.tgt_lang) := by
  cases hr : model_task_to_src_tgt_lang model task with
  | error e => simp [prepare, hr] at h
  | ok p =>
    obtain ⟨src, tgt⟩ := p
    simp only [prepare, hr] at h
    split_ifs at h with hmb h50 hm2 <;> simp only [Except.ok.injEq] at h <;> subst h <;>
      simp_all

/-- C1: For every model in the MBART family roster and every task in the fixed
four-entry task table, `model_task_to_src_tgt_lang` succeeds — returning the
task's codes ("en_XX", "ro_RO") — exactly when the task is the en→ro task; for
the three other tasks it raises. -/
theorem mbart_family_resolve_en_ro_only
    (model : String) (hm : model ∈ MBART_MODELS) (task : String) (ht : task ∈ TASKS) :
    (resolveSucceeds model task = true ↔ task = "wmt16-en-ro") ∧
    (task = "wmt16-en-ro" →
      model_task_to_src_tgt_lang model task = Except.ok ("en_XX", "ro_RO")) := by
  revert model task
  decide

/-- Witness for C1 at the MBART model and the en→ro task. -/
theorem mbart_family_resolve_en_ro_only_witness :
    (resolveSucceeds "facebook/mbart-large-en-ro" "wmt16-en-ro" = true ↔
      "wmt16-en-ro" = "wmt16-en-ro") ∧
    ("wmt16-en-ro" = "wmt16-en-ro" →
      model_task_to_src_tgt_lang "facebook/mbart-large-en-ro" "wmt16-en-ro" =
        Except.ok ("en_XX", "ro_RO")) :=
  mbart_family_resolve_en_ro_only "facebook/mbart-large-en-ro" (by decide)
    "wmt16-en-ro" (by decide)

/-- C2: For every task in the task table, the designated one-to-many variants
(first MBART50 roster entry, sixth M2M100 roster entry) raise exactly when the
task's source code is not "en_XX", and the designated many-to-one variants
(second MBART50 roster entry, seventh M2M100 roster entry) raise exactly when
the task's target code is not "en_XX". -/
theorem designated_variants_resolve_en_src_tgt
    (task : String) (ht : task ∈ TASKS) (src tgt : String)
    (h : TASK2SRCTGT task = some (src, tgt)) :
    (resolveSucceeds MBART50_MODELS[0]! task = false ↔ src ≠ "en_XX") ∧
    (resolveSucceeds M2M100_MODELS[5]! task = false ↔ src ≠ "en_XX") ∧
    (resolveSucceeds MBART50_MODELS[1]! task = false ↔ tgt ≠ "en_XX") ∧
    (resolveSucceeds M2M100_MODELS[6]! task = false ↔ tgt ≠ "en_XX") := by
  fin_cases ht <;>
    (simp only [TASK2SRCTGT, reduceIte, Option.some.injEq, Prod.mk.injEq] at h ;
     rcases h with ⟨rfl, rfl⟩) <;> decide

/-- Witness for C2 at the ro→en task. -/
theorem designated_variants_resolve_en_src_tgt_witness :
    (resolveSucceeds MBART50_MODELS[0]! "wmt16-ro-en" = false ↔ "ro_RO" ≠ "en_XX") ∧
    (resolveSucceeds M2M100_MODELS[5]! "wmt16-ro-en" = false ↔ "ro_RO" ≠ "en_XX") ∧
    (resolveSucceeds MBART50_MODELS[1]! "wmt16-ro-en" = false ↔ "en_XX" ≠ "en_XX") ∧
    (resolveSucceeds M2M100_MODELS[6]! "wmt16-ro-en" = false ↔ "en_XX" ≠ "en_XX") :=
  designated_variants_resolve_en_src_tgt "wmt16-ro-en" (by decide) "ro_RO" "en_XX" (by decide)

/-- C3: Whenever the resolver succeeds, a model in the M2M100 roster gets both
codes trimmed to exactly 2 characters, each a prefix of the corresponding
5-character task-table code, while any model outside the M2M100 roster gets
the 5-character task-table codes unmodified. -/
theorem m2m100_codes_trimmed_others_unmodified
    (model task src tgt : String) (ht : TASK2SRCTGT task = some (src, tgt))
    (out : String × String) (hok : model_task_to_src_tgt_lang model task = Except.ok out) :
    (model ∈ M2M100_MODELS →
      out.1.length = 2 ∧ out.2.length = 2 ∧ out.1.data <+: src.data ∧ out.2.data <+: tgt.data) ∧
    (model ∉ M2M100_MODELS → out = (src, tgt)) := by
  have hcases := TASK2SRCTGT_cases ht
  simp only [model_task_to_src_tgt_lang, ht] at hok
  split_ifs at hok with hc1 hc2 hc3 hc4 hc5 <;> simp only [reduceCtorEq, Except.ok.injEq] at hok
  · subst hok
    refine ⟨fun _ => ?_, fun hn => absurd hc5 hn⟩
    rcases hcases with ⟨rfl, rfl⟩ | ⟨rfl, rfl⟩ | ⟨rfl, rfl⟩ | ⟨rfl, rfl⟩ <;>
      exact ⟨by decide, by decide, by decide, by decide⟩
  · subst hok
    exact ⟨fun hm => absurd hm hc5, fun _ => rfl⟩

/-- Witness for C3 at an M2M100 model and the en→ro task. -/
theorem m2m100_codes_trimmed_others_unmodified_witness :
    ("facebook/m2m100_418M" ∈ M2M100_MODELS →
      ("en", "ro").1.length = 2 ∧ ("en", "ro").2.length = 2 ∧
      ("en", "ro").1.data <+: "en_XX".data ∧ ("en", "ro").2.data <+: "ro_RO".data) ∧
    ("facebook/m2m100_418M" ∉ M2M100_MODELS → ("en", "ro") = ("en_XX", "ro_RO")) :=
  m2m100_codes_trimmed_others_unmodified "facebook/m2m100_418M" "wmt16-en-ro"
    "en_XX" "ro_RO" (by decide) ("en", "ro") (by decide)

/-- C4 counterexample: a model id belonging to none of the three rosters for
which the resolver does NOT fail — it returns the task's code pair. -/
theorem unknown_model_resolve_ok_counterexample :
    ("unknown/model" ∉ VALID_MODELS) ∧
    model_task_to_src_tgt_lang "unknown/model" "wmt16-en-ro" =
      Except.ok ("en_XX", "ro_RO") := by
  decide

/-- C4 amended: for every task in the task table and every model id in none of
the three rosters, the resolver succeeds, returning the task's 5-character
codes unmodified; the unrecognized-identifier value error is instead raised
later, by `prepare`, at the model-class/control-argument selection step. -/
theorem unknown_model_resolve_ok_error_deferred
    (model : String) (hm : model ∉ VALID_MODELS) (task src tgt : String)
    (ht : TASK2SRCTGT task = some (src, tgt)) :
    model_task_to_src_tgt_lang model task = Except.ok (src, tgt) ∧
    ∀ tokenizer q, prepare tokenizer model task q =
      Except.error (PrepareError.valueError model) :=
  ⟨resolve_unknown hm ht, fun tokenizer q => prepare_unknown hm ht tokenizer q⟩

/-- Witness for the amended C4 at a concrete unknown model id. -/
theorem unknown_model_resolve_ok_error_deferred_witness :
    model_task_to_src_tgt_lang "unknown/model" "wmt16-en-ro" = Except.ok ("en_XX", "ro_RO") ∧
    ∀ tokenizer q, prepare tokenizer "unknown/model" "wmt16-en-ro" q =
      Except.error (PrepareError.valueError "unknown/model") :=
  unknown_model_resolve_ok_error_deferred "unknown/model" (by decide)
    "wmt16-en-ro" "en_XX" "ro_RO" (by decide)

/-- C5: Constructing a Translator (whose `__init__` calls `prepare`) with a
model id absent from all three rosters and a valid task fails during
preparation with the value error of the model-class/control-argument selection
step, so no prepared state — the precondition of any `predict` or
`predict_offline` call — can exist. -/
theorem unknown_model_prepare_value_error
    (model : String) (hm : model ∉ VALID_MODELS) (task src tgt : String)
    (ht : TASK2SRCTGT task = some (src, tgt)) (tokenizer : Tokenizer) (q : String) :
    prepare tokenizer model task q = Except.error (PrepareError.valueError model) ∧
    ∀ st : Prepared, prepare tokenizer model task q ≠ Except.ok st := by
  refine ⟨prepare_unknown hm ht tokenizer q, fun st hst => ?_⟩
  rw [prepare_unknown hm ht tokenizer q] at hst
  exact Except.noConfusion hst

/-- Witness for C5 at a concrete unknown model id. -/
theorem unknown_model_prepare_value_error_witness :
    prepare ⟨fun _ => 7, fun _ => 3⟩ "unknown/model" "wmt16-en-ro" "fp16" =
      Except.error (PrepareError.valueError "unknown/model") ∧
    ∀ st : Prepared, prepare ⟨fun _ => 7, fun _ => 3⟩ "unknown/model" "wmt16-en-ro" "fp16" ≠
      Except.ok st :=
  unknown_model_prepare_value_error "unknown/model" (by decide) "wmt16-en-ro"
    "en_XX" "ro_RO" (by decide) ⟨fun _ => 7, fun _ => 3⟩ "fp16"

/-- C6: For every quantize-mode string outside the four recognized values,
`prepare` takes the same branch as no quantization: full precision with an
explicit device move, exactly the default mode's observable loading
behaviour. -/
theorem unrecognized_quantize_mode_full_precision
    (q : String) (hq : q ∉ (["fp16", "bf16", "bb8", "bb4"] : List String)) :
    quantize_load_mode q = LoadMode.full_precision_to_device ∧
    ∀ tokenizer model task st, prepare tokenizer model task q = Except.ok st →
      st.load_mode = LoadMode.full_precision_to_device := by
  have hbranch : quantize_load_mode q = LoadMode.full_precision_to_device := by
    simp only [List.mem_cons, List.not_mem_nil, or_false, not_or] at hq
    obtain ⟨h1, h2, h3, h4⟩ := hq
    simp [quantize_load_mode, h1, h2, h3, h4]
  exact ⟨hbranch, fun tokenizer model task st h =>
    (prepare_ok_inversion h).1.trans hbranch⟩

/-- Witness for C6 at the quantize mode "weird" and a successful preparation
of the MBART model. -/
theorem unrecognized_quantize_mode_full_precision_witness :
    quantize_load_mode "weird" = LoadMode.full_precision_to_device ∧
    ∀ tokenizer model task st, prepare tokenizer model task "weird" = Except.ok st →
      st.load_mode = LoadMode.full_precision_to_device :=
  unrecognized_quantize_mode_full_precision "weird" (by decide)

/-- C7: After a successful preparation, the control argument is determined by
the model's family alone: decoder-start-token-id for the MBART roster, and
forced-first-output-token-id for the MBART50 and M2M100 rosters, in both cases
carrying the resolved target language id (the tokenizer-derived id of the
resolved target code). -/
theorem control_argument_by_family
    (tokenizer : Tokenizer) (model task q : String) (st : Prepared)
    (h : prepare tokenizer model task q = Except.ok st) :
    (model ∈ MBART_MODELS →
      st.additional_args = ControlArgs.decoder_start_token_id st.tgt_lang_id) ∧
    (model ∈ MBART50_MODELS ∨ model ∈ M2M100_MODELS →
      st.additional_args = ControlArgs.forced_bos_token_id st.tgt_lang_id) ∧
    st.tgt_lang_id = (if model ∈ M2M100_MODELS then tokenizer.get_lang_id st.tgt_lang
      else tokenizer.lang_code_to_id st.tgt_lang) := by
  obtain ⟨-, hdec, hbos, hid⟩ := prepare_ok_inversion h
  refine ⟨hdec, fun hor => hbos ?_, hid⟩
  have : ∀ m ∈ MBART50_MODELS ++ M2M100_MODELS, m ∉ MBART_MODELS := by decide
  exact this model (List.mem_append.mpr hor)

/-- Witness for C7 at the MBART model. -/
theorem control_argument_by_family_witness :
    ("facebook/mbart-large-en-ro" ∈ MBART_MODELS →
      st0.additional_args = ControlArgs.decoder_start_token_id st0.tgt_lang_id) ∧
    ("facebook/mbart-large-en-ro" ∈ MBART50_MODELS ∨
        "facebook/mbart-large-en-ro" ∈ M2M100_MODELS →
      st0.additional_args = ControlArgs.forced_bos_token_id st0.tgt_lang_id) ∧
    st0.tgt_lang_id = (if "facebook/mbart-large-en-ro" ∈ M2M100_MODELS then
      tok0.get_lang_id st0.tgt_lang else tok0.lang_code_to_id st0.tgt_lang) :=
  control_argument_by_family tok0 "facebook/mbart-large-en-ro" "wmt16-en-ro" "weird" st0
    (by decide)


/-- Unfolding `chunked` on a nonempty list. -/
theorem chunked_cons {α : Type _} (n : Nat) (x : α) (xs : List α) :
    chunked n (x :: xs) = (x :: xs.take (n - 1)) :: chunked n (xs.drop (n - 1)) := by
  rw [chunked]

/-- Concatenating the chunks recovers the chunked list. -/
theorem chunked_flatten {α : Type _} (n : Nat) (l : List α) : (chunked n l).flatten = l := by
  cases l with
  | nil => simp [chunked]
  | cons x xs =>
    have ih := chunked_flatten n (xs.drop (n - 1))
    rw [chunked_cons]
    simp [ih]
termination_by l.length
decreasing_by simp [List.length_drop]; omega

/-- The chunk sizes of `chunked 32` depend only on the list's length, and are
given by `chunkSizes32`. -/
theorem chunked32_map_length {α : Type _} (l : List α) :
    (chunked 32 l).map List.length = chunkSizes32 l.length := by
  cases l with
  | nil => simp [chunked, chunkSizes32]
  | cons x xs =>
    have ih := chunked32_map_length (xs.drop 31)
    have harg : xs.length - 31 = xs.length + 1 - 32 := by omega
    rw [chunked_cons]
    simp only [show (32 : Nat) - 1 = 31 from rfl, List.map_cons, List.length_cons,
      List.length_take]
    rw [chunkSizes32, dif_neg (by omega : ¬xs.length + 1 = 0)]
    rw [List.length_drop] at ih
    rw [ih, harg]
    congr 1
    omega
termination_by l.length
decreasing_by simp [List.length_drop]; omega

/-- Every chunk of `chunked 32` is nonempty and holds at most 32 elements. -/
theorem chunked32_mem_length {α : Type _} (l : List α) :
    ∀ c ∈ chunked 32 l, 0 < c.length ∧ c.length ≤ 32 := by
  cases l with
  | nil => simp [chunked]
  | cons x xs =>
    have ih := chunked32_mem_length (xs.drop 31)
    intro c hc
    rw [chunked_cons] at hc
    rcases List.mem_cons.mp hc with rfl | hmem
    · have := List.length_take_le 31 xs
      simp only [List.length_cons]
      constructor
      · omega
      · rw [show (32 : Nat) - 1 = 31 from rfl]
        simp only [List.length_take]
        omega
    · exact ih c hmem
termination_by l.length
decreasing_by simp [List.length_drop]; omega

/-- Every chunk of `chunked 32` except the last holds exactly 32 elements. -/
theorem chunked32_dropLast_length {α : Type _} (l : List α) :
    ∀ c ∈ (chunked 32 l).dropLast, c.length = 32 := by
  cases l with
  | nil => simp [chunked]
  | cons x xs =>
    have ih := chunked32_dropLast_length (xs.drop 31)
    intro c hc
    rw [chunked_cons, show (32 : Nat) - 1 = 31 from rfl] at hc
    rcases hrest : chunked 32 (xs.drop 31) with - | ⟨r, rs⟩
    · rw [hrest] at hc
      simp at hc
    · rw [hrest, List.dropLast_cons_of_ne_nil (by simp)] at hc
      rcases List.mem_cons.mp hc with rfl | hmem
      · have hne : xs.drop 31 ≠ [] := by
          intro hnil
          rw [hnil] at hrest
          simp [chunked] at hrest
        have hlen : 31 < xs.length := by
          by_contra hle
          exact hne (List.drop_eq_nil_of_le (by omega))
        simp only [List.length_cons, List.length_take]
        omega
      · exact ih c (hrest ▸ hmem)
termination_by l.length
decreasing_by simp [List.length_drop]; omega

/-- The stable sort by length keeps the input's order within each length
class: filtering by any fixed length commutes with sorting. -/
theorem sortByLen_stable (inputs : List String) (k : Nat) :
    (sortByLen inputs).filter (fun s => s.length == k) =
      inputs.filter (fun s => s.length == k) := by
  have hall : ∀ x ∈ inputs.filter (fun s => s.length == k), x.length = k := by
    intro x hx
    simpa using (List.mem_filter.mp hx).2
  have hpair : (inputs.filter (fun s => s.length == k)).Pairwise lenLe :=
    List.pairwise_of_forall_mem_list (fun a ha b hb => by
      simp [lenLe, hall a ha, hall b hb])
  have h1 : List.Sublist (inputs.filter (fun s => s.length == k)) (sortByLen inputs) :=
    List.sublist_insertionSort hpair (List.filter_sublist inputs)
  have h2 : List.Perm ((sortByLen inputs).filter (fun s => s.length == k))
      (inputs.filter (fun s => s.length == k)) :=
    (List.perm_insertionSort lenLe inputs).filter _
  have h3 : List.Sublist (inputs.filter (fun s => s.length == k))
      ((sortByLen inputs).filter (fun s => s.length == k)) := by
    have h4 := h1.filter (fun s => s.length == k)
    rwa [List.filter_filter, show (fun a => (a.length == k) && (a.length == k)) =
      (fun a : String => a.length == k) from by funext a; simp [Bool.and_self]] at h4
  exact (h3.eq_of_length h2.length_eq.symm).symm

/-- C8: `predict` yields exactly one output per input, in input order —
output `i` is the trimmed decoding of the generation for input `i` — so three
inputs yield exactly three strings. -/
theorem predict_one_output_per_input_in_order
    (m : ExternalModel) (args : ControlArgs)
    (enc : String → List Nat) (gen : List Nat → List Nat) (dec : List Nat → String)
    (henc : ∀ b, m.encode b = b.map enc)
    (hgen : ∀ b, m.generate b args = b.map gen)
    (hdec : ∀ b, m.decode b = b.map dec)
    (inputs : List String) :
    predict m args inputs = inputs.map (fun x => (dec (gen (enc x))).trim) ∧
    (predict m args inputs).length = inputs.length ∧
    (inputs = ["a", "bb", "ccc"] → (predict m args inputs).length = 3) := by
  have h : predict m args inputs = inputs.map (fun x => (dec (gen (enc x))).trim) := by
    simp [predict, henc, hgen, hdec, List.map_map, Function.comp]
  exact ⟨h, by simp [h], fun hi => by subst hi; simp [h]⟩

/-- Witness for C8 on the three-element input list. -/
theorem predict_one_output_per_input_in_order_witness :
    predict m0 (ControlArgs.forced_bos_token_id 3) ["a", "bb", "ccc"] =
      (["a", "bb", "ccc"] : List String).map (fun x => (dec0 (gen0 (enc0 x))).trim) ∧
    (predict m0 (ControlArgs.forced_bos_token_id 3) ["a", "bb", "ccc"]).length =
      (["a", "bb", "ccc"] : List String).length ∧
    ((["a", "bb", "ccc"] : List String) = ["a", "bb", "ccc"] →
      (predict m0 (ControlArgs.forced_bos_token_id 3) ["a", "bb", "ccc"]).length = 3) :=
  predict_one_output_per_input_in_order m0 (ControlArgs.forced_bos_token_id 3)
    enc0 gen0 dec0 (fun _ => rfl) (fun _ => rfl) (fun _ => rfl) ["a", "bb", "ccc"]

/-- C9: `predict_offline` stably sorts the inputs by ascending length,
partitions the sorted list into consecutive chunks of exactly 32 (last chunk
possibly smaller), and yields one output per input in the length-sorted
order; 40 inputs give chunk sizes [32, 8] and 40 outputs. -/
theorem predict_offline_sorted_chunked
    (m : ExternalModel) (args : ControlArgs)
    (enc : String → List Nat) (gen : List Nat → List Nat) (dec : List Nat → String)
    (henc : ∀ b, m.encode b = b.map enc)
    (hgen : ∀ b, m.generate b args = b.map gen)
    (hdec : ∀ b, m.decode b = b.map dec)
    (inputs : List String) :
    List.Perm (sortByLen inputs) inputs ∧
    List.Sorted lenLe (sortByLen inputs) ∧
    (∀ k : Nat, (sortByLen inputs).filter (fun s => s.length == k) =
      inputs.filter (fun s => s.length == k)) ∧
    (chunked 32 (sortByLen inputs)).flatten = sortByLen inputs ∧
    (∀ c ∈ (chunked 32 (sortByLen inputs)).dropLast, c.length = 32) ∧
    (∀ c ∈ chunked 32 (sortByLen inputs), 0 < c.length ∧ c.length ≤ 32) ∧
    predict_offline m args inputs =
      (sortByLen inputs).map (fun x => (dec (gen (enc x))).trim) ∧
    (predict_offline m args inputs).length = inputs.length ∧
    (inputs.length = 40 → (chunked 32 (sortByLen inputs)).map List.length = [32, 8]) := by
  have hperm : List.Perm (sortByLen inputs) inputs := List.perm_insertionSort lenLe inputs
  have hmain : predict_offline m args inputs =
      (sortByLen inputs).map (fun x => (dec (gen (enc x))).trim) := by
    rw [predict_offline]
    conv_rhs => rw [← chunked_flatten 32 (sortByLen inputs)]
    rw [List.map_flatten]
    congr 1
    congr 1
    funext batch
    simp [henc, hgen, hdec, List.map_map, Function.comp]
  refine ⟨hperm, List.sorted_insertionSort lenLe inputs, fun k => sortByLen_stable inputs k,
    chunked_flatten 32 (sortByLen inputs), chunked32_dropLast_length (sortByLen inputs),
    chunked32_mem_length (sortByLen inputs), hmain, ?_, fun h40 => ?_⟩
  · rw [hmain, List.length_map]
    exact hperm.length_eq
  · rw [chunked32_map_length, hperm.length_eq, h40]
    rw [chunkSizes32]
    norm_num
    rw [chunkSizes32]
    norm_num
    rw [chunkSizes32]
    simp

/-- Witness for C9 on forty concrete inputs: 40 outputs, chunk sizes [32, 8]. -/
theorem predict_offline_sorted_chunked_witness :
    (predict_offline m0 (ControlArgs.forced_bos_token_id 3) inputs40).length = 40 ∧
    (chunked 32 (sortByLen inputs40)).map List.length = [32, 8] := by
  have h := predict_offline_sorted_chunked m0 (ControlArgs.forced_bos_token_id 3)
    enc0 gen0 dec0 (fun _ => rfl) (fun _ => rfl) (fun _ => rfl) inputs40
  have h40 : inputs40.length = 40 := by decide
  exact ⟨by rw [h.2.2.2.2.2.2.2.1, h40], h.2.2.2.2.2.2.2.2 h40⟩

/-- C10: On the empty input list, `predict_offline` yields nothing and raises
nothing — sorting and chunking produce zero chunks, so the result is the empty
sequence for every external collaborator, no encode, generate or decode call
being issued. -/
theorem predict_offline_empty_yields_nothing (m : ExternalModel) (args : ControlArgs) :
    predict_offline m args [] = [] := by
  simp [predict_offline, sortByLen, List.insertionSort, chunked]

end Mbart
